import Mathlib

/-
Verification of the alert dispatch core of telegram_stock_alert_bot.py.
The definitions below are a shallow embedding of the relevant parts of the
script: the watch table and its helpers, the source adapters, and the
per-cycle dispatch loop `poll_and_push`.
-/

namespace StockBot

/-- A normalized announcement item, as produced by the source adapters
(nse_announcements / bse_announcements / newsapi_headlines): dict with
keys id, symbol, headline, link, ts. -/
structure Item where
  id : String
  symbol : String
  headline : String
  link : String
  ts : String
deriving DecidableEq

/-- The `watch` table (user INTEGER, symbol TEXT, UNIQUE(user, symbol)),
modelled as a list of rows in insertion order. -/
abbrev WatchTable := List (Int × String)

/-- Number of rows of the watch table equal to (user, symbol). -/
def rowCount (user : Int) (symbol : String) (db : WatchTable) : Nat :=
  db.countP (fun r => decide (r = (user, symbol)))

/-- add_symbol (line 103): INSERT OR IGNORE INTO watch VALUES (user, symbol).
With the UNIQUE(user, symbol) constraint this appends the row only when the
pair is not already present. -/
def add_symbol (user : Int) (symbol : String) (db : WatchTable) : WatchTable :=
  if (user, symbol) ∈ db then db else db ++ [(user, symbol)]

/-- remove_symbol (line 109): DELETE FROM watch WHERE user=? AND symbol=?,
deleting every row equal to the pair. -/
def remove_symbol (user : Int) (symbol : String) (db : WatchTable) : WatchTable :=
  db.filter (fun r => !decide (r = (user, symbol)))

/-- Python str.upper() applied characterwise (ASCII case folding). -/
def upperStr (s : String) : String :=
  ⟨s.data.map Char.toUpper⟩

/-- cmd_watch (line 286): uppercases its argument (ctx.args[0].upper())
and calls add_symbol. -/
def cmd_watch (user : Int) (arg : String) (db : WatchTable) : WatchTable :=
  add_symbol user (upperStr arg) db

/-- cmd_unwatch (line 295): uppercases its argument and calls remove_symbol. -/
def cmd_unwatch (user : Int) (arg : String) (db : WatchTable) : WatchTable :=
  remove_symbol user (upperStr arg) db

/-- Python substring test `pat in hay` on lists of characters:
true iff pat occurs contiguously inside hay. -/
def strIn (pat : List Char) : List Char → Bool
  | [] => pat.isEmpty
  | c :: t => pat.isPrefixOf (c :: t) || strIn pat t

/-- Python str.lower() applied characterwise (ASCII case folding). -/
def lowerChars (s : String) : List Char :=
  s.data.map Char.toLower

/-- The broadcast-logic block of poll_and_push (lines 234-249): for a
news item, every watch row whose symbol is a case-insensitive substring of
the headline contributes its user; for an exchange filing, users watching
the exact symbol plus all watch_all users. The final set(users) is
modelled by List.dedup. -/
def matchUsers (watch : WatchTable) (watchAll : List Int) (item : Item) : List Int :=
  let raw :=
    if item.symbol = "news" then
      (watch.filter (fun r => strIn (lowerChars r.2) (lowerChars item.headline))).map
        (fun r => r.1)
    else
      (watch.filter (fun r => decide (r.2 = item.symbol))).map (fun r => r.1) ++ watchAll
  raw.dedup

/-- Result of one run of the dispatch loop: the updated LAST_IDS map, the
items the loop body ran for (in order), and the (user, item) deliveries
handed to the transport. -/
structure CycleResult where
  cursor : String → Option String
  processed : List Item
  deliveries : List (Int × Item)
deriving Inhabited

/-- The dispatch loop of poll_and_push (lines 228-262) over the merged
item list. For each item: if its id equals LAST_IDS.get(symbol) the whole
loop breaks; otherwise LAST_IDS[symbol] is overwritten with this id, the
interested users are computed, and one delivery per user is handed off. -/
def pollLoop (watch : WatchTable) (watchAll : List Int) :
    List Item → (String → Option String) → CycleResult
  | [], cur => ⟨cur, [], []⟩
  | it :: rest, cur =>
    if some it.id = cur it.symbol then
      ⟨cur, [], []⟩
    else
      let cur' := fun s => if s = it.symbol then some it.id else cur s
      let users := matchUsers watch watchAll it
      let r := pollLoop watch watchAll rest cur'
      ⟨r.cursor, it :: r.processed, users.map (fun u => (u, it)) ++ r.deliveries⟩

/-- A sequence of poll cycles over one source: each cycle feeds its
returned item list through pollLoop, threading LAST_IDS, and the
deliveries of all cycles are concatenated. -/
def runCycles (watch : WatchTable) (watchAll : List Int) :
    List (List Item) → (String → Option String) → (String → Option String) × List (Int × Item)
  | [], cur => (cur, [])
  | c :: cs, cur =>
    let r := pollLoop watch watchAll c cur
    let rest := runCycles watch watchAll cs r.cursor
    (rest.1, r.deliveries ++ rest.2)

/-- How many deliveries in the list went to user u for the announcement
identity annId. -/
def deliveryCount (dels : List (Int × Item)) (u : Int) (annId : String) : Nat :=
  dels.countP (fun d => decide (d.1 = u) && decide (d.2.id = annId))

/-- Outcome of one HTTP GET as seen by fetch_json (lines 139-146): either
an exception during the request (timeout included), or a response with a
status code and, when the body parses as JSON, the parsed payload
(none models a body on which resp.json() raises). -/
inductive HttpOutcome (α : Type) where
  | exn : HttpOutcome α
  | resp (status : Nat) (body : Option α) : HttpOutcome α
deriving DecidableEq

/-- fetch_json (lines 139-146): performs one GET; returns None when the
status is not 200 and None when any exception is raised (the whole call is
wrapped in try/except returning None), else the parsed JSON. -/
def fetch_json {α : Type} : HttpOutcome α → Option α
  | .exn => none
  | .resp status body => if status = 200 then body else none

/-- The outcome is a transport failure: an exception/timeout or a
non-success HTTP status. -/
def transportFails {α : Type} : HttpOutcome α → Prop
  | .exn => True
  | .resp status _ => status ≠ 200

/-- fetch_json issues exactly one request per call (a single session.get
at line 141, no loop). Given the sequence of outcomes that successive
request attempts would produce, it consumes only the first; the second
component counts requests actually made. -/
def fetchAttempts {α : Type} (outcomes : List (HttpOutcome α)) : Option α × Nat :=
  match outcomes with
  | [] => (none, 0)
  | o :: _ => (fetch_json o, 1)

/-- One raw row of the NSE corporate-announcements payload, with the
fields nse_announcements reads (lines 155-162); optional fields are the
ones accessed with .get. -/
structure NseRow where
  id : String
  symbol : String
  headline : String
  attachPath : Option String
  pdfUrl : Option String
  time : Option String
deriving DecidableEq

/-- The NSE response payload: the "data" key when present.  none models
both a payload without the key and the falsy empty dict. -/
structure NsePayload where
  dataRows : Option (List NseRow)
deriving DecidableEq

/-- Python `row.get("attachPath") or row.get("pdfUrl", "")` (line 160):
a missing or empty attachPath falls back to pdfUrl, defaulting to "". -/
def rowLink (r : NseRow) : String :=
  match r.attachPath with
  | some s => if s = "" then r.pdfUrl.getD "" else s
  | none => r.pdfUrl.getD ""

/-- nse_announcements (lines 149-163) applied to the result of
fetch_json: on a missing payload or a payload without "data" it returns
the empty list, else it normalizes each row into an Item. -/
def nse_announcements (fetched : Option NsePayload) : List Item :=
  match fetched with
  | none => []
  | some p =>
    match p.dataRows with
    | none => []
    | some rows => rows.map (fun r => ⟨r.id, r.symbol, r.headline, rowLink r, r.time.getD ""⟩)

/-- The inner delivery loop of poll_and_push (lines 258-262): one
send_message per user, each wrapped in try/except pass.  send models the
transport; the result records, per user in order, whether the send
succeeded. -/
def fanOut (send : Int → Except String Unit) (users : List Int) : List (Int × Bool) :=
  users.map (fun u => (u, match send u with | Except.ok _ => true | Except.error _ => false))

/-- The whole item list is fresh relative to the running per-symbol
cursor value c: the first id differs from c and each id differs from its
predecessor (all items are assumed to carry the same symbol, so c is that
one stored entry). -/
def freshChain (c : Option String) : List Item → Bool
  | [] => true
  | it :: rest => !decide (some it.id = c) && freshChain (some it.id) rest

/-- The id of the last element of an item list, if any. -/
def lastId : List Item → Option String
  | [] => none
  | it :: rest =>
    match rest with
    | [] => some it.id
    | _ :: _ => lastId rest

/-- The dispatch loop runs to the end of the list without hitting the
break: no item id equals the running cursor entry for its symbol. -/
def noStop (cur : String → Option String) : List Item → Bool
  | [] => true
  | it :: rest =>
    !decide (some it.id = cur it.symbol) &&
      noStop (fun s => if s = it.symbol then some it.id else cur s) rest

/-- A concrete announcement for symbol S, newer than itemB. -/
def itemA : Item := ⟨"a", "S", "headline a", "", ""⟩

/-- A concrete announcement for symbol S, older than itemA. -/
def itemB : Item := ⟨"b", "S", "headline b", "", ""⟩

/-- A cold-start provider payload: 50 announcements with pairwise distinct
ids and symbols. -/
def coldItems : List Item :=
  (List.range 50).map (fun j =>
    ⟨⟨List.replicate (j + 1) 'i'⟩, ⟨List.replicate (j + 1) 's'⟩, "", "", ""⟩)

/-- A rate-limited request trace: the first attempt gets HTTP 429 and a
retry, were one made, would get HTTP 200 with a nonempty payload. -/
def rateLimitedRun : List (HttpOutcome NsePayload) :=
  [HttpOutcome.resp 429 none,
   HttpOutcome.resp 200 (some ⟨some [⟨"n1", "TCS", "quarterly results", none, none, none⟩]⟩)]

end StockBot

namespace StockBot

/-- C1 (code bug): the dedup memory fails on its own declared purpose.
With one source, one user watching symbol S, the provider returning
[b] in cycle 1 and the strictly newest-first [a, b] in cycle 2, the
announcement identity b is delivered to user 1 in both cycles (the loop
overwrites LAST_IDS[S] with a before re-checking b), so the same
identity reaches the same user twice from that source. -/
theorem dedup_delivers_twice :
    deliveryCount (runCycles [(1, "S")] [] [[itemB], [itemA, itemB]] (fun _ => none)).2 1 "b" = 2 := by
  decide

/-- C2 counterexample: on a cycle whose fresh newest-first items are
[itemA, itemB] (itemA the newest), the stored cursor for S afterwards is
the id of itemB, the oldest fresh item, not the id of the newest item
itemA as the claim states. -/
theorem cursor_not_newest :
    (pollLoop [(1, "S")] [] [itemA, itemB] (fun _ => none)).cursor "S" ≠ some itemA.id ∧
      (pollLoop [(1, "S")] [] [itemA, itemB] (fun _ => none)).cursor "S" = some itemB.id ∧
      freshChain ((fun _ => (none : Option String)) "S") [itemA, itemB] = true := by
  decide

/-- Auxiliary induction: over a single-symbol item list that is entirely
fresh, the dispatch loop leaves the cursor at the id of the LAST element
of the list. -/
theorem pollLoop_cursor_last (w : WatchTable) (wa : List Int) (s : String) :
    ∀ (items : List Item) (cur : String → Option String),
      (∀ it ∈ items, it.symbol = s) → items ≠ [] → freshChain (cur s) items = true →
      (pollLoop w wa items cur).cursor s = lastId items := by
  intro items
  induction items with
  | nil => intro cur _ hne _; exact absurd rfl hne
  | cons it rest ih =>
    intro cur hs _ hfresh
    have hsym : it.symbol = s := hs it (List.mem_cons_self _ _)
    rw [freshChain, Bool.and_eq_true] at hfresh
    have hneq : ¬(some it.id = cur it.symbol) := by
      rw [hsym]; simpa using hfresh.1
    simp only [pollLoop, if_neg hneq]
    cases rest with
    | nil => simp [pollLoop, lastId, hsym]
    | cons r rs =>
      simp only [lastId]
      refine ih _ (fun x hx => hs x (List.mem_cons_of_mem _ hx)) (by simp) ?_
      simpa [hsym] using hfresh.2

/-- C2 (amended): for a source whose items all carry symbol s, if the
cycle found fresh items (the whole returned list is fresh) the stored
cursor afterwards equals the identity of the LAST fresh item processed
(the oldest of the newest-first sequence), and if no fresh items were
found (the first returned item is the one already stored) the cursor and
the whole cycle state are unchanged. -/
theorem cursor_tracks_last_processed (w : WatchTable) (wa : List Int)
    (items : List Item) (s : String) (cur : String → Option String)
    (hs : ∀ it ∈ items, it.symbol = s) :
    (items ≠ [] → freshChain (cur s) items = true →
        (pollLoop w wa items cur).cursor s = lastId items) ∧
      (∀ it, items.head? = some it → some it.id = cur s →
        pollLoop w wa items cur = ⟨cur, [], []⟩) := by
  constructor
  · exact fun hne hfresh => pollLoop_cursor_last w wa s items cur hs hne hfresh
  · intro it hhead hid
    cases items with
    | nil => simp at hhead
    | cons it0 rest =>
      have he : it0 = it := by simpa using hhead
      subst he
      have hsym : it0.symbol = s := hs it0 (List.mem_cons_self _ _)
      simp only [pollLoop]
      rw [hsym, if_pos hid]

/-- C2 witness: the amended cursor statement instantiated at the concrete
fresh cycle [itemA, itemB] for symbol S with an empty cursor map. -/
theorem cursor_tracks_last_processed_witness :
    (([itemA, itemB] : List Item) ≠ [] →
        freshChain ((fun _ => (none : Option String)) "S") [itemA, itemB] = true →
        (pollLoop [(1, "S")] [] [itemA, itemB] (fun _ => none)).cursor "S" = lastId [itemA, itemB]) ∧
      (∀ it, ([itemA, itemB] : List Item).head? = some it →
        some it.id = (fun _ => (none : Option String)) "S" →
        pollLoop [(1, "S")] [] [itemA, itemB] (fun _ => none) = ⟨fun _ => none, [], []⟩) :=
  cursor_tracks_last_processed [(1, "S")] [] [itemA, itemB] "S" (fun _ => none) (by decide)

/-- C3 counterexample: on a cold start (no cursor stored for any symbol)
with 50 returned items, the dispatch loop processes the entire returned
history of 50 items; no bounded cap is applied. -/
theorem cold_start_processes_entire_history :
    (pollLoop [] [] coldItems (fun _ => none)).processed = coldItems ∧
      coldItems.length = 50 := by
  decide

/-- C3 (amended): whenever the per-item break never fires, and in
particular on a first run with no stored cursor and pairwise fresh items,
EVERY returned item is processed: the processed list equals the full
returned list, with no bound on its length. -/
theorem all_items_processed (w : WatchTable) (wa : List Int)
    (items : List Item) (cur : String → Option String)
    (h : noStop cur items = true) :
    (pollLoop w wa items cur).processed = items := by
  revert h
  induction items generalizing cur with
  | nil => intro _; rfl
  | cons it rest ih =>
    intro h
    rw [noStop, Bool.and_eq_true] at h
    have hneq : ¬(some it.id = cur it.symbol) := by simpa using h.1
    simp only [pollLoop, if_neg hneq]
    simp [ih _ h.2]

/-- C3 witness: the cold-start cycle [itemA, itemB] with no stored cursor
processes both items. -/
theorem all_items_processed_witness :
    (pollLoop [(1, "S")] [] [itemA, itemB] (fun _ => none)).processed = [itemA, itemB] :=
  all_items_processed [(1, "S")] [] [itemA, itemB] (fun _ => none) (by decide)

/-- C4: for every fresh item, the recipient list handed to the delivery
loop (the set(users) of poll_and_push) contains each user at most once,
even when a user is matched both by a symbol subscription and by the
watch_all flag. -/
theorem fanout_user_once (w : WatchTable) (wa : List Int) (it : Item) (u : Int) :
    (matchUsers w wa it).count u ≤ 1 := by
  have h : (matchUsers w wa it).Nodup := by
    unfold matchUsers
    exact List.nodup_dedup _
  exact List.nodup_iff_count_le_one.mp h u

/-- C5: the fan-out of one item attempts delivery to every recipient
exactly once, in order, whatever the transport does: each send is wrapped
in try/except pass, so a failure for one recipient never removes later
recipients from the attempt list and no recipient is retried. -/
theorem delivery_failures_isolated (send : Int → Except String Unit) (users : List Int) :
    (fanOut send users).map Prod.fst = users := by
  induction users with
  | nil => rfl
  | cons u rest ih =>
    simp only [fanOut, List.map_cons] at ih ⊢
    rw [ih]

/-- C6: subscribing twice is idempotent.  On any watch table satisfying
the UNIQUE(user, symbol) invariant, add_symbol applied twice equals
add_symbol applied once, and after the add exactly one row for the pair
is present. -/
theorem subscribe_idempotent (db : WatchTable) (u : Int) (s : String)
    (h : rowCount u s db ≤ 1) :
    add_symbol u s (add_symbol u s db) = add_symbol u s db ∧
      rowCount u s (add_symbol u s db) = 1 := by
  by_cases hm : (u, s) ∈ db
  · have hadd : add_symbol u s db = db := by simp [add_symbol, hm]
    refine ⟨by rw [hadd, hadd], ?_⟩
    rw [hadd]
    have h1 : 0 < rowCount u s db := by
      rw [rowCount, List.countP_pos_iff]
      exact ⟨(u, s), hm, by simp⟩
    omega
  · have hadd : add_symbol u s db = db ++ [(u, s)] := by simp [add_symbol, hm]
    have hmem2 : (u, s) ∈ db ++ [(u, s)] := by simp
    refine ⟨by rw [hadd]; simp [add_symbol, hmem2], ?_⟩
    have h0 : rowCount u s db = 0 := by
      rw [rowCount, List.countP_eq_zero]
      intro a ha
      simp only [decide_eq_true_eq]
      intro he
      exact hm (he ▸ ha)
    rw [hadd, rowCount, List.countP_append]
    rw [rowCount] at h0
    simp [h0]

/-- C6 witness: two adds of (7, TCS) on the table [(7, INFY)] leave one
row for the pair and the second add is a no-op. -/
theorem subscribe_idempotent_witness :
    add_symbol 7 "TCS" (add_symbol 7 "TCS" [(7, "INFY")]) = add_symbol 7 "TCS" [(7, "INFY")] ∧
      rowCount 7 "TCS" (add_symbol 7 "TCS" [(7, "INFY")]) = 1 :=
  subscribe_idempotent [(7, "INFY")] 7 "TCS" (by decide)

/-- C7: on any transport failure (exception, timeout, or non-200 status)
fetch_json returns none without raising, the adapter normalizes that to
an empty item list, and feeding that empty list through the dispatch loop
leaves the cursor map unchanged for the cycle. -/
theorem transport_failure_yields_nothing (w : WatchTable) (wa : List Int)
    (o : HttpOutcome NsePayload) (cur : String → Option String)
    (h : transportFails o) :
    nse_announcements (fetch_json o) = [] ∧
      pollLoop w wa (nse_announcements (fetch_json o)) cur = ⟨cur, [], []⟩ := by
  have hnone : fetch_json o = none := by
    cases o with
    | exn => rfl
    | resp st b =>
      have h200 : st ≠ 200 := h
      simp [fetch_json, h200]
  rw [hnone]
  exact ⟨rfl, rfl⟩

/-- C7 witness: an HTTP 503 response yields no items and an unchanged
cursor. -/
theorem transport_failure_yields_nothing_witness :
    nse_announcements (fetch_json (HttpOutcome.resp 503 (some ⟨some []⟩))) = [] ∧
      pollLoop [(1, "TCS")] [] (nse_announcements (fetch_json (HttpOutcome.resp 503 (some ⟨some []⟩))))
        (fun _ => none) = ⟨fun _ => none, [], []⟩ :=
  transport_failure_yields_nothing [(1, "TCS")] [] (HttpOutcome.resp 503 (some ⟨some []⟩))
    (fun _ => none) (by show (503 : Nat) ≠ 200; decide)

/-- C8 counterexample: on the rate-limited trace (first attempt HTTP 429,
a second attempt would succeed with items) fetch_json makes exactly one
request and yields nothing, so no bounded retry with backoff is
performed, contrary to the claim. -/
theorem rate_limited_single_attempt :
    fetchAttempts rateLimitedRun = (none, 1) ∧
      nse_announcements (fetchAttempts rateLimitedRun).1 = [] := by
  decide

/-- C8 (amended): on any non-success status, rate limiting included, the
adapter makes exactly one request and gives up for the cycle with no
payload: there are no retries. -/
theorem non_success_no_retry {α : Type} (st : Nat) (b : Option α)
    (rest : List (HttpOutcome α)) (h : st ≠ 200) :
    fetchAttempts (HttpOutcome.resp st b :: rest) = (none, 1) := by
  simp [fetchAttempts, fetch_json, h]

/-- C8 witness: the no-retry statement at status 429 with a successful
outcome available for a second attempt. -/
theorem non_success_no_retry_witness :
    fetchAttempts (HttpOutcome.resp 429 (none : Option NsePayload) ::
        [HttpOutcome.resp 200 (some ⟨some []⟩)]) = (none, 1) :=
  non_success_no_retry 429 none [HttpOutcome.resp 200 (some ⟨some []⟩)] (by decide)

/-- C9: for a keyword-news item (symbol "news"), a user is selected as a
recipient iff some row of the watch table pairs that user with a symbol
that is a case-insensitive substring of the item headline. -/
theorem keyword_match_iff (w : WatchTable) (wa : List Int) (it : Item) (u : Int)
    (h : it.symbol = "news") :
    u ∈ matchUsers w wa it ↔
      ∃ s, (u, s) ∈ w ∧ strIn (lowerChars s) (lowerChars it.headline) = true := by
  simp only [matchUsers, h, if_true, reduceIte, List.mem_dedup, List.mem_map, List.mem_filter]
  constructor
  · rintro ⟨⟨v, s⟩, ⟨hw, hp⟩, rfl⟩
    exact ⟨s, hw, hp⟩
  · rintro ⟨s, hw, hp⟩
    exact ⟨(u, s), ⟨hw, hp⟩, rfl⟩

/-- C9 witness: the keyword matching statement at a concrete news item
whose headline contains TCS for subscriber 1. -/
theorem keyword_match_iff_witness :
    (1 : Int) ∈ matchUsers [(1, "TCS"), (2, "INFY")] [] ⟨"u1", "news", "Big TCS contract win", "", ""⟩ ↔
      ∃ s, ((1 : Int), s) ∈ [((1 : Int), "TCS"), ((2 : Int), "INFY")] ∧
        strIn (lowerChars s) (lowerChars "Big TCS contract win") = true :=
  keyword_match_iff [(1, "TCS"), (2, "INFY")] [] ⟨"u1", "news", "Big TCS contract win", "", ""⟩ 1 rfl

/-- C10: cmd_watch and cmd_unwatch uppercase their argument before the
table operation, so a watch followed by an unwatch of any case variant of
the same letters leaves no row for the canonical pair, whatever the
starting table. -/
theorem watch_unwatch_cancel (db : WatchTable) (u : Int) (s t : String)
    (h : upperStr s = upperStr t) :
    rowCount u (upperStr s) (cmd_unwatch u t (cmd_watch u s db)) = 0 := by
  rw [h]
  unfold cmd_unwatch remove_symbol rowCount
  rw [List.countP_eq_zero]
  intro a ha
  rw [List.mem_filter] at ha
  simpa using ha.2

/-- C10 witness: watch tcs then unwatch TcS for user 5 leaves no TCS row. -/
theorem watch_unwatch_cancel_witness :
    rowCount 5 (upperStr "tcs") (cmd_unwatch 5 "TcS" (cmd_watch 5 "tcs" [(6, "X")])) = 0 :=
  watch_unwatch_cancel [(6, "X")] 5 "tcs" "TcS" (by decide)

end StockBot
